import Mathlib

/-!
Verification of the session / capture-timer core of the
Deteccion-de-emociones application.

The Python sources are shallowly embedded below.  Wall-clock time
(Python `time.time()`, float seconds) is modelled by the rationals,
with the current time passed explicitly to every operation that the
source reads from the clock.  Python float `%` and `//` on
non-negative operands are modelled by `pymod` and `Int.floor`.

Embedded sources:
  * `src/core/session_manager.py`  (EmotionDetection, SessionStatistics,
    SessionManager: sessions, statistics, capture timer)
  * `src/config.py`                (AppConfig constants,
    EmotionConfig.get_labels_for_classes)
  * `utils/model_utils.py`         (predict_emotion, get_label_set_for_classes)
  * `src/ui/interface.py`          (_on_new_frame dispatch condition)
  * `app_original.py`              (_run_detection / stop_and_save record flow)
-/

/-- Python float modulo `a % b` for a real-valued pair: `a - b * floor (a / b)`. -/
def pymod (a b : ℚ) : ℚ := a - b * (⌊a / b⌋ : ℚ)

/-- AppConfig.DEFAULT_CAPTURE_INTERVAL (src/config.py, 5.0 seconds). -/
def DEFAULT_CAPTURE_INTERVAL : ℚ := 5

/-- AppConfig.MIN_CAPTURE_INTERVAL (src/config.py, 0.1 seconds). -/
def MIN_CAPTURE_INTERVAL : ℚ := 1/10

/-- AppConfig.MAX_CAPTURE_INTERVAL (src/config.py, 60.0 seconds). -/
def MAX_CAPTURE_INTERVAL : ℚ := 60

/-- PerformanceConfig.MAX_EMOTION_HISTORY (src/config.py, deque maxlen). -/
def MAX_EMOTION_HISTORY : Nat := 1000

/-- EmotionDetection (src/core/session_manager.py): one detection record.
The derived `datetime` display field is not modelled. -/
structure EmotionDetection where
  emotion : String
  confidence : ℚ
  timestamp : ℚ
deriving DecidableEq, Repr

/-- SessionStatistics (src/core/session_manager.py).  Python defaultdicts
(insertion ordered) are modelled as association lists. -/
structure SessionStatistics where
  total_detections : Nat
  emotion_counts : List (String × Nat)
  confidence_sum : List (String × ℚ)
  start_time : Option ℚ
  end_time : Option ℚ
  duration : ℚ
  detections_history : List EmotionDetection
  detections_per_minute : List (ℤ × Nat)
  peak_emotion_times : List (String × List ℚ)
deriving DecidableEq, Repr

/-- SessionStatistics.__init__: all counters empty. -/
def SessionStatistics.init : SessionStatistics :=
  { total_detections := 0
    emotion_counts := []
    confidence_sum := []
    start_time := none
    end_time := none
    duration := 0
    detections_history := []
    detections_per_minute := []
    peak_emotion_times := [] }

/-- defaultdict(int) increment: bump the entry of key `k` by one, inserting
a fresh entry at the end when the key is absent (Python dict order). -/
def bumpCount (l : List (String × Nat)) (k : String) : List (String × Nat) :=
  if l.any (fun p => p.1 = k) then
    l.map (fun p => if p.1 = k then (p.1, p.2 + 1) else p)
  else l ++ [(k, 1)]

/-- defaultdict(float) sum accumulation, keyed like `bumpCount`. -/
def bumpSum (l : List (String × ℚ)) (k : String) (c : ℚ) : List (String × ℚ) :=
  if l.any (fun p => p.1 = k) then
    l.map (fun p => if p.1 = k then (p.1, p.2 + c) else p)
  else l ++ [(k, c)]

/-- defaultdict(int) increment on integer minute keys. -/
def bumpMinute (l : List (ℤ × Nat)) (k : ℤ) : List (ℤ × Nat) :=
  if l.any (fun p => p.1 = k) then
    l.map (fun p => if p.1 = k then (p.1, p.2 + 1) else p)
  else l ++ [(k, 1)]

/-- defaultdict(list) append on string keys. -/
def bumpPeak (l : List (String × List ℚ)) (k : String) (t : ℚ) :
    List (String × List ℚ) :=
  if l.any (fun p => p.1 = k) then
    l.map (fun p => if p.1 = k then (p.1, p.2 ++ [t]) else p)
  else l ++ [(k, [t])]

/-- collections.deque(maxlen = MAX_EMOTION_HISTORY) append: the leftmost
element is discarded once the deque is full. -/
def dequeAppend (h : List EmotionDetection) (d : EmotionDetection) :
    List EmotionDetection :=
  if h.length < MAX_EMOTION_HISTORY then h ++ [d] else h.drop 1 ++ [d]

/-- SessionStatistics.add_detection (src/core/session_manager.py lines 78-99). -/
def SessionStatistics.add_detection (s : SessionStatistics)
    (d : EmotionDetection) : SessionStatistics :=
  { s with
    total_detections := s.total_detections + 1
    emotion_counts := bumpCount s.emotion_counts d.emotion
    confidence_sum := bumpSum s.confidence_sum d.emotion d.confidence
    detections_history := dequeAppend s.detections_history d
    detections_per_minute := bumpMinute s.detections_per_minute ⌊d.timestamp / 60⌋
    peak_emotion_times :=
      if d.confidence > 4/5 then bumpPeak s.peak_emotion_times d.emotion d.timestamp
      else s.peak_emotion_times }

/-- The serialisable part of SessionStatistics.to_dict
(src/core/session_manager.py lines 200-214).  The derived summary entries
(dominant_emotion, emotion_distribution, average_confidences,
detection_rate) are recomputed views of the fields kept here and are not
modelled. -/
structure StatsDict where
  total_detections : Nat
  emotion_counts : List (String × Nat)
  confidence_sum : List (String × ℚ)
  start_time : Option ℚ
  end_time : Option ℚ
  duration : ℚ
  detections_history : List EmotionDetection
deriving DecidableEq, Repr

/-- SessionStatistics.to_dict, restricted to the modelled entries.  The
detections_history entry keeps the deque contents in order. -/
def SessionStatistics.to_dict (s : SessionStatistics) : StatsDict :=
  { total_detections := s.total_detections
    emotion_counts := s.emotion_counts
    confidence_sum := s.confidence_sum
    start_time := s.start_time
    end_time := s.end_time
    duration := s.duration
    detections_history := s.detections_history }

/-- SessionManager state (src/core/session_manager.py lines 220-238).
The session id string `sesion_%Y%m%d_%H%M%S` is represented by the start
timestamp that generates it; the results directory, the callbacks and the
print statements are not modelled. -/
structure SessionManager where
  current_session : Option SessionStatistics
  session_active : Bool
  session_id : Option ℚ
  capture_timer_enabled : Bool
  capture_timer_start : Option ℚ
  capture_interval : ℚ
  next_capture_time : Option ℚ
deriving DecidableEq, Repr

/-- SessionManager.__init__. -/
def SessionManager.init : SessionManager :=
  { current_session := none
    session_active := false
    session_id := none
    capture_timer_enabled := false
    capture_timer_start := none
    capture_interval := DEFAULT_CAPTURE_INTERVAL
    next_capture_time := none }

/-- Result of get_timer_status (src/core/session_manager.py lines 384-410).
The disabled branch of the source returns a dict without a cycle_count key
and with next_capture = None; these are modelled with Option. -/
structure TimerStatus where
  enabled : Bool
  time_remaining : ℚ
  next_capture : Option ℚ
  interval : ℚ
  cycle_count : Option ℤ
deriving DecidableEq, Repr

/-- SessionManager.get_timer_status, with the clock reading passed in as
`now`.  When enabled, elapsed = now - capture_timer_start,
time_in_cycle = elapsed % interval, time_remaining = interval -
time_in_cycle, cycle_count = int(elapsed // interval). -/
def SessionManager.get_timer_status (st : SessionManager) (now : ℚ) :
    TimerStatus :=
  if st.capture_timer_enabled = false then
    { enabled := false
      time_remaining := 0
      next_capture := none
      interval := st.capture_interval
      cycle_count := none }
  else
    let elapsed := now - (st.capture_timer_start.getD 0)
    let time_in_cycle := pymod elapsed st.capture_interval
    let time_remaining := st.capture_interval - time_in_cycle
    { enabled := true
      time_remaining := time_remaining
      next_capture := some (now + time_remaining)
      interval := st.capture_interval
      cycle_count := some ⌊elapsed / st.capture_interval⌋ }

/-- SessionManager.start_capture_timer (lines 363-377): optionally clamp and
store the interval (minimum 0.1 s), enable the timer and restart its epoch. -/
def SessionManager.start_capture_timer (st : SessionManager)
    (interval : Option ℚ) (now : ℚ) : SessionManager :=
  let st₁ :=
    match interval with
    | some i => { st with capture_interval := max (1/10) i }
    | none => st
  { st₁ with
    capture_timer_enabled := true
    capture_timer_start := some now
    next_capture_time := some (now + st₁.capture_interval) }

/-- SessionManager.stop_capture_timer (lines 379-382). -/
def SessionManager.stop_capture_timer (st : SessionManager) : SessionManager :=
  { st with capture_timer_enabled := false }

/-- SessionManager.is_capture_time (lines 412-423): true when the timer is
enabled and the remaining time of the current cycle is at most the 100 ms
margin. -/
def SessionManager.is_capture_time (st : SessionManager) (now : ℚ) : Bool :=
  if st.capture_timer_enabled = false then false
  else decide ((st.get_timer_status now).time_remaining ≤ 1/10)

/-- C1: for an enabled capture timer started at epoch e with raw interval x
(stored clamped to i = max 0.1 x) and any now ≥ e, get_timer_status reports
time_remaining = i - ((now - e) mod i) and cycle_count = floor ((now - e) / i);
at now = e the reported time_remaining is exactly i. -/
theorem timer_status_formula (x e now : ℚ) (hnow : e ≤ now) :
    ((SessionManager.init.start_capture_timer (some x) e).get_timer_status now).enabled
        = true ∧
    ((SessionManager.init.start_capture_timer (some x) e).get_timer_status now).time_remaining
        = max (1/10) x - pymod (now - e) (max (1/10) x) ∧
    ((SessionManager.init.start_capture_timer (some x) e).get_timer_status now).cycle_count
        = some ⌊(now - e) / max (1/10) x⌋ ∧
    ((SessionManager.init.start_capture_timer (some x) e).get_timer_status e).time_remaining
        = max (1/10) x := by
  refine ⟨rfl, rfl, rfl, ?_⟩
  simp [SessionManager.start_capture_timer, SessionManager.get_timer_status,
    SessionManager.init, pymod]

/-- Witness for timer_status_formula at x = 2, e = 1, now = 4. -/
theorem timer_status_formula_witness :
    ((SessionManager.init.start_capture_timer (some 2) 1).get_timer_status 4).enabled
        = true ∧
    ((SessionManager.init.start_capture_timer (some 2) 1).get_timer_status 4).time_remaining
        = max (1/10) 2 - pymod (4 - 1) (max (1/10) 2) ∧
    ((SessionManager.init.start_capture_timer (some 2) 1).get_timer_status 4).cycle_count
        = some ⌊((4 : ℚ) - 1) / max (1/10) 2⌋ ∧
    ((SessionManager.init.start_capture_timer (some 2) 1).get_timer_status 1).time_remaining
        = max (1/10) 2 :=
  timer_status_formula 2 1 4 (by norm_num)

/-- Result of SessionManager.end_session: the returned statistics dict plus
the report side effects (whether _save_session_report was called, and
whether it completed without the swallowed exception). -/
structure EndSessionResult where
  stats : Option StatsDict
  report_invoked : Bool
  report_ok : Bool
deriving DecidableEq, Repr

/-- SessionManager.end_session (src/core/session_manager.py lines 263-304),
with the clock reading `now` and the behaviour of the external PDF writer
(`report_fails`) passed in.  A failing report is caught by the
try/except and never propagates. -/
def SessionManager.end_session (st : SessionManager) (save_report : Bool)
    (now : ℚ) (report_fails : Bool) : EndSessionResult × SessionManager :=
  match st.current_session with
  | none => (⟨none, false, true⟩, st)
  | some cs =>
    if st.session_active = false then (⟨none, false, true⟩, st)
    else
      let cs₁ : SessionStatistics :=
        { cs with end_time := some now, duration := now - cs.start_time.getD 0 }
      let stats := cs₁.to_dict
      let invoked := save_report && decide (0 < stats.total_detections)
      (⟨some stats, invoked, !(invoked && report_fails)⟩,
        { st with
          session_active := false
          capture_timer_enabled := false
          current_session := none
          session_id := none })

/-- Result of SessionManager.start_session: the fresh session id (represented
by its generating timestamp) and, when a previous session was still active,
the outcome of the implicit end_session call. -/
structure StartResult where
  new_id : ℚ
  finalize : Option EndSessionResult
deriving DecidableEq, Repr

/-- SessionManager.start_session (lines 240-261): a still-active session is
first finalized through end_session (with report saving), then the fresh
session and its capture timer epoch are installed. -/
def SessionManager.start_session (st : SessionManager) (now : ℚ)
    (report_fails : Bool) : StartResult × SessionManager :=
  let fin : Option EndSessionResult :=
    if st.session_active then some (st.end_session true now report_fails).1 else none
  let st₁ : SessionManager :=
    if st.session_active then (st.end_session true now report_fails).2 else st
  let st₂ : SessionManager :=
    { st₁ with
      session_id := some now
      current_session := some { SessionStatistics.init with start_time := some now }
      session_active := true
      capture_timer_start := some now
      next_capture_time := some (now + st₁.capture_interval) }
  (⟨now, fin⟩, st₂)

/-- SessionManager.add_detection (lines 306-326): ignored unless a session
is active with a live statistics object. -/
def SessionManager.add_detection (st : SessionManager) (emotion : String)
    (confidence : ℚ) (timestamp : ℚ) : SessionManager :=
  match st.current_session with
  | none => st
  | some cs =>
    if st.session_active = false then st
    else
      { st with
        current_session := some (cs.add_detection ⟨emotion, confidence, timestamp⟩) }

/-- SessionManager.set_capture_interval (lines 426-434): clamp into
[MIN_CAPTURE_INTERVAL, MAX_CAPTURE_INTERVAL]. -/
def SessionManager.set_capture_interval (st : SessionManager) (interval : ℚ) :
    SessionManager :=
  { st with
    capture_interval :=
      max MIN_CAPTURE_INTERVAL (min MAX_CAPTURE_INTERVAL interval) }

/-- User-visible outcome reported by app_original.stop_and_save together
with _save_session_report: an empty-session notice, a saved-report notice,
or a report-error notice (the stop itself completes in every case). -/
inductive StopMessage where
  | emptySession : StopMessage
  | savedOk : StopMessage
  | saveError : StopMessage
deriving DecidableEq, Repr

/-- Message selection of app_original.stop_and_save (lines 893-939): a
report is attempted exactly when session_records is non-empty, and a
failing save is reported as an error distinct from the empty-session case. -/
def stop_and_save_message (records_count : Nat) (save_fails : Bool) : StopMessage :=
  if records_count ≠ 0 then
    (if save_fails then StopMessage.saveError else StopMessage.savedOk)
  else StopMessage.emptySession

/-- A guard note kept alongside the claims below: SessionManager ignores a
detection completion that arrives once the session is inactive. -/
theorem add_detection_inactive_noop (st : SessionManager) (e : String)
    (c t : ℚ) (h : st.session_active = false) : st.add_detection e c t = st := by
  unfold SessionManager.add_detection
  cases st.current_session <;> simp [h]

/-- C10: set_capture_interval stores the clamp of its argument into the
closed range [0.1, 60]: values below 0.1 become 0.1, values above 60
become 60, and values inside the range are stored unchanged. -/
theorem set_capture_interval_clamps (st : SessionManager) (x : ℚ) :
    (st.set_capture_interval x).capture_interval =
      if x < 1/10 then 1/10 else if 60 < x then 60 else x := by
  unfold SessionManager.set_capture_interval MIN_CAPTURE_INTERVAL MAX_CAPTURE_INTERVAL
  split_ifs with h1 h2
  · rw [min_eq_right (by linarith), max_eq_left (by linarith)]
  · rw [min_eq_left (by linarith), max_eq_right (by norm_num)]
  · rw [min_eq_right (by linarith), max_eq_right (by linarith)]

/-- A manager holding an active session that has recorded no detections. -/
def sampleMgrEmpty : SessionManager :=
  { SessionManager.init with
    session_active := true
    current_session := some { SessionStatistics.init with start_time := some 10 } }

/-- Statistics of a session holding exactly one detection. -/
def sampleStatsOne : SessionStatistics :=
  { total_detections := 1
    emotion_counts := [("feliz", 1)]
    confidence_sum := [("feliz", 9/10)]
    start_time := some 10
    end_time := none
    duration := 0
    detections_history := [⟨"feliz", 9/10, 12⟩]
    detections_per_minute := [(0, 1)]
    peak_emotion_times := [("feliz", [12])] }

/-- A manager holding an active session with one recorded detection. -/
def sampleMgrOne : SessionManager :=
  { SessionManager.init with
    session_active := true
    current_session := some sampleStatsOne }

/-- C5: ending a started session that recorded zero detections never invokes
the report generator, the caller is shown the empty-session notice, and the
stop itself still succeeds, returning the session statistics with the
session transitioned to inactive. -/
theorem empty_session_no_report (st : SessionManager) (cs : SessionStatistics)
    (now : ℚ) (rf : Bool) (hact : st.session_active = true)
    (hcs : st.current_session = some cs) (h0 : cs.total_detections = 0) :
    (st.end_session true now rf).1.report_invoked = false ∧
    (st.end_session true now rf).1.stats =
      some ({ cs with
        end_time := some now
        duration := now - cs.start_time.getD 0 }).to_dict ∧
    (st.end_session true now rf).2.session_active = false ∧
    stop_and_save_message 0 rf = StopMessage.emptySession := by
  simp [SessionManager.end_session, hcs, hact, h0, stop_and_save_message,
    SessionStatistics.to_dict]

/-- Witness for empty_session_no_report on sampleMgrEmpty at now = 25. -/
theorem empty_session_no_report_witness :
    (sampleMgrEmpty.end_session true 25 false).1.report_invoked = false ∧
    (sampleMgrEmpty.end_session true 25 false).1.stats =
      some ({ SessionStatistics.init with
        start_time := some 10
        end_time := some 25
        duration := 25 - (Option.some (10:ℚ)).getD 0 }).to_dict ∧
    (sampleMgrEmpty.end_session true 25 false).2.session_active = false ∧
    stop_and_save_message 0 false = StopMessage.emptySession :=
  empty_session_no_report sampleMgrEmpty
    { SessionStatistics.init with start_time := some 10 } 25 false rfl rfl rfl

/-- C6: when the report generator fails during stop, the session still
transitions to inactive, its end time and duration are recorded, and
end_session returns the statistics instead of propagating the failure; the
report is marked as attempted and failed. -/
theorem report_failure_still_stops (st : SessionManager) (cs : SessionStatistics)
    (now s : ℚ) (hact : st.session_active = true)
    (hcs : st.current_session = some cs) (hst : cs.start_time = some s)
    (h0 : 0 < cs.total_detections) :
    (st.end_session true now true).1.stats =
      some (SessionStatistics.to_dict { cs with end_time := some now, duration := now - s }) ∧
    (st.end_session true now true).1.report_invoked = true ∧
    (st.end_session true now true).1.report_ok = false ∧
    (st.end_session true now true).2.session_active = false ∧
    (st.end_session true now true).2.capture_timer_enabled = false := by
  simp [SessionManager.end_session, hcs, hact, hst, h0, SessionStatistics.to_dict]

/-- Witness for report_failure_still_stops on sampleMgrOne at now = 25. -/
theorem report_failure_still_stops_witness :
    (sampleMgrOne.end_session true 25 true).1.stats =
      some (SessionStatistics.to_dict { sampleStatsOne with
        end_time := some 25
        duration := 25 - 10 }) ∧
    (sampleMgrOne.end_session true 25 true).1.report_invoked = true ∧
    (sampleMgrOne.end_session true 25 true).1.report_ok = false ∧
    (sampleMgrOne.end_session true 25 true).2.session_active = false ∧
    (sampleMgrOne.end_session true 25 true).2.capture_timer_enabled = false :=
  report_failure_still_stops sampleMgrOne sampleStatsOne 25 10 rfl rfl rfl
    (by norm_num [sampleStatsOne])

/-- C9: calling start_session while a session is active first finalizes the
active session exactly through end_session with report saving (its report is
generated exactly when it holds at least one detection), then installs the
fresh session; the call always returns the fresh session id. -/
theorem start_session_finalizes_previous (st : SessionManager)
    (cs : SessionStatistics) (now : ℚ) (rf : Bool)
    (hact : st.session_active = true) (hcs : st.current_session = some cs) :
    (st.start_session now rf).1.new_id = now ∧
    (st.start_session now rf).1.finalize = some (st.end_session true now rf).1 ∧
    (st.end_session true now rf).1.report_invoked
        = decide (0 < cs.total_detections) ∧
    (st.end_session true now rf).1.stats =
      some ({ cs with
        end_time := some now
        duration := now - cs.start_time.getD 0 }).to_dict ∧
    (st.start_session now rf).2.session_active = true ∧
    (st.start_session now rf).2.session_id = some now ∧
    (st.start_session now rf).2.current_session
        = some { SessionStatistics.init with start_time := some now } ∧
    (st.start_session now rf).2.capture_timer_start = some now ∧
    (st.start_session now rf).2.next_capture_time
        = some (now + st.capture_interval) := by
  refine ⟨?_, ?_, ?_, ?_, ?_, ?_, ?_, ?_, ?_⟩ <;>
    simp [SessionManager.start_session, SessionManager.end_session, hact, hcs,
      SessionStatistics.to_dict]

/-- Witness for start_session_finalizes_previous on sampleMgrOne at now = 30. -/
theorem start_session_finalizes_previous_witness :
    (sampleMgrOne.start_session 30 false).1.new_id = 30 ∧
    (sampleMgrOne.start_session 30 false).1.finalize
        = some (sampleMgrOne.end_session true 30 false).1 ∧
    (sampleMgrOne.end_session true 30 false).1.report_invoked
        = decide (0 < sampleStatsOne.total_detections) ∧
    (sampleMgrOne.end_session true 30 false).1.stats =
      some (SessionStatistics.to_dict { sampleStatsOne with
        end_time := some 30
        duration := 30 - sampleStatsOne.start_time.getD 0 }) ∧
    (sampleMgrOne.start_session 30 false).2.session_active = true ∧
    (sampleMgrOne.start_session 30 false).2.session_id = some 30 ∧
    (sampleMgrOne.start_session 30 false).2.current_session
        = some { SessionStatistics.init with start_time := some 30 } ∧
    (sampleMgrOne.start_session 30 false).2.capture_timer_start = some 30 ∧
    (sampleMgrOne.start_session 30 false).2.next_capture_time
        = some (30 + sampleMgrOne.capture_interval) :=
  start_session_finalizes_previous sampleMgrOne sampleStatsOne 30 false rfl rfl

/-- Dispatch decision of EmotionDetectionInterface._on_new_frame
(src/ui/interface.py lines 417-423): every incoming preview frame runs a
classification attempt exactly when is_capture_time() answers true. -/
def on_new_frame_dispatch (st : SessionManager) (now : ℚ) : Bool :=
  st.is_capture_time now

/-- Number of classification dispatches that the preview polls in `polls`
produce inside timer cycle `c`. -/
def dispatches_in_cycle (st : SessionManager) (polls : List ℚ) (c : ℤ) : Nat :=
  (polls.filter (fun t =>
    on_new_frame_dispatch st t && ((st.get_timer_status t).cycle_count == some c))).length

/-- A running capture timer with epoch 0 and a 5 second interval. -/
def pollTimer : SessionManager :=
  { SessionManager.init with
    capture_timer_enabled := true
    capture_timer_start := some 0
    capture_interval := 5 }

/-- C2 failing input: with a 5 s interval and epoch 0, two preview polls at
4.91 s and 4.95 s both fall in cycle 0 and both pass is_capture_time
(time_remaining 0.09 s and 0.05 s, both within the 100 ms margin), so the
frame callback dispatches two classification attempts in a single cycle. -/
theorem double_dispatch_in_one_cycle :
    dispatches_in_cycle pollTimer [491/100, 495/100] 0 = 2 := by
  have h1 : pollTimer.get_timer_status (491/100) =
      { enabled := true
        time_remaining := 9/100
        next_capture := some (491/100 + 9/100)
        interval := 5
        cycle_count := some 0 } := by
    simp only [SessionManager.get_timer_status, pollTimer, SessionManager.init]
    norm_num [pymod]
  have h2 : pollTimer.get_timer_status (495/100) =
      { enabled := true
        time_remaining := 5/100
        next_capture := some (495/100 + 5/100)
        interval := 5
        cycle_count := some 0 } := by
    simp only [SessionManager.get_timer_status, pollTimer, SessionManager.init]
    norm_num [pymod]
  have he : pollTimer.capture_timer_enabled = true := rfl
  have b1 : on_new_frame_dispatch pollTimer (491/100) = true := by
    rw [on_new_frame_dispatch, SessionManager.is_capture_time, he, h1]
    norm_num
  have b2 : on_new_frame_dispatch pollTimer (495/100) = true := by
    rw [on_new_frame_dispatch, SessionManager.is_capture_time, he, h2]
    norm_num
  have c1 : ((pollTimer.get_timer_status (491/100)).cycle_count == some 0) = true := by
    rw [h1]; rfl
  have c2 : ((pollTimer.get_timer_status (495/100)).cycle_count == some 0) = true := by
    rw [h2]; rfl
  unfold dispatches_in_cycle
  simp [b1, b2, c1, c2]

/-- One entry of app_original.py session_records (fields beyond the emotion
label and confidence are not needed below). -/
structure AppRecord where
  emotion : String
  confidence : ℚ
deriving DecidableEq, Repr

/-- The record-flow state of app_original.EmotionApp: the running flag and
the in-memory session record list. -/
structure AppState where
  running : Bool
  session_records : List AppRecord
deriving DecidableEq, Repr

/-- Effect of app_original.stop_and_save (lines 893-939) on the record flow:
the running flag is cleared, the camera and timers are shut down, and the
report is written from session_records, which the stop itself leaves
untouched. -/
def app_stop_and_save (st : AppState) : AppState :=
  { st with running := false }

/-- Completion of app_original._run_detection (lines 856-891): the worker
thread appends its record to session_records unconditionally - there is no
check of the running flag and no session generation guard. -/
def app_run_detection_complete (st : AppState) (r : AppRecord) : AppState :=
  { st with session_records := st.session_records ++ [r] }

/-- C3 failing input: a session with an empty record list is stopped while
one detection is in flight; when the worker completes after the stop
transition it still appends to the finalized record list, which grows from
zero records to one. -/
theorem late_detection_mutates_stopped_session :
    (app_stop_and_save ⟨true, []⟩).running = false ∧
    (app_stop_and_save ⟨true, []⟩).session_records = [] ∧
    (app_run_detection_complete (app_stop_and_save ⟨true, []⟩)
        ⟨"feliz", 9/10⟩).session_records = [⟨"feliz", 9/10⟩] ∧
    (app_run_detection_complete (app_stop_and_save ⟨true, []⟩)
        ⟨"feliz", 9/10⟩).session_records ≠
      (app_stop_and_save ⟨true, []⟩).session_records :=
  ⟨rfl, rfl, rfl, by simp [app_stop_and_save, app_run_detection_complete]⟩

/-- Folding SessionStatistics.add_detection over a list of detections. -/
def statsFold (s : SessionStatistics) : List EmotionDetection → SessionStatistics
  | [] => s
  | d :: l => statsFold (s.add_detection d) l

/-- Driving SessionManager.add_detection over a list of detections, in order. -/
def SessionManager.add_all (st : SessionManager) :
    List EmotionDetection → SessionManager
  | [] => st
  | d :: l => (st.add_detection d.emotion d.confidence d.timestamp).add_all l

theorem add_detection_start_time (s : SessionStatistics) (d : EmotionDetection) :
    (s.add_detection d).start_time = s.start_time := rfl

theorem statsFold_start_time :
    ∀ (l : List EmotionDetection) (s : SessionStatistics),
      (statsFold s l).start_time = s.start_time
  | [], _ => rfl
  | d :: l, s => by
    rw [statsFold, statsFold_start_time l, add_detection_start_time]

theorem statsFold_total :
    ∀ (l : List EmotionDetection) (s : SessionStatistics),
      (statsFold s l).total_detections = s.total_detections + l.length
  | [], _ => rfl
  | d :: l, s => by
    rw [statsFold, statsFold_total l]
    simp [SessionStatistics.add_detection]
    omega

theorem add_detection_history_short (s : SessionStatistics) (d : EmotionDetection)
    (h : s.detections_history.length < 1000) :
    (s.add_detection d).detections_history = s.detections_history ++ [d] := by
  simp [SessionStatistics.add_detection, dequeAppend, MAX_EMOTION_HISTORY, h]

theorem statsFold_history :
    ∀ (l : List EmotionDetection) (s : SessionStatistics),
      s.detections_history.length + l.length ≤ 1000 →
      (statsFold s l).detections_history = s.detections_history ++ l
  | [], s, _ => by simp [statsFold]
  | d :: l, s, h => by
    have hlt : s.detections_history.length < 1000 := by
      simp only [List.length_cons] at h
      omega
    rw [statsFold, statsFold_history l _
      (by rw [add_detection_history_short s d hlt]; simp at h ⊢; omega)]
    rw [add_detection_history_short s d hlt]
    simp

theorem add_detection_history_len (s : SessionStatistics) (d : EmotionDetection)
    (h : s.detections_history.length ≤ 1000) :
    (s.add_detection d).detections_history.length =
      min (s.detections_history.length + 1) 1000 := by
  simp only [SessionStatistics.add_detection, dequeAppend, MAX_EMOTION_HISTORY]
  split_ifs with hl
  · simp
    omega
  · simp
    omega

theorem statsFold_history_len :
    ∀ (l : List EmotionDetection) (s : SessionStatistics),
      s.detections_history.length ≤ 1000 →
      (statsFold s l).detections_history.length =
        min (s.detections_history.length + l.length) 1000
  | [], s, h => by simp [statsFold]; omega
  | d :: l, s, h => by
    rw [statsFold, statsFold_history_len l _
      (by rw [add_detection_history_len s d h]; omega)]
    rw [add_detection_history_len s d h]
    simp only [List.length_cons]
    omega

theorem add_all_active :
    ∀ (l : List EmotionDetection) (st : SessionManager) (cs : SessionStatistics),
      st.session_active = true → st.current_session = some cs →
      st.add_all l = { st with current_session := some (statsFold cs l) }
  | [], st, cs, _, hcs => by
    rw [SessionManager.add_all, statsFold, ← hcs]
  | d :: l, st, cs, hact, hcs => by
    have hstep : st.add_detection d.emotion d.confidence d.timestamp =
        { st with current_session := some (cs.add_detection d) } := by
      rw [SessionManager.add_detection, hcs]
      simp [hact]
    rw [SessionManager.add_all, hstep,
      add_all_active l { st with current_session := some (cs.add_detection d) }
        (cs.add_detection d) hact rfl]
    rfl

/-- Round-trip driver: start a session at t0, feed a list of detections
through SessionManager.add_detection in order, stop at t1, and keep the
statistics that end_session hands to the report stage. -/
def roundtrip (ds : List EmotionDetection) (t0 t1 : ℚ) (rf : Bool) :
    EndSessionResult :=
  (((SessionManager.init.start_session t0 rf).2.add_all ds).end_session true t1 rf).1

theorem roundtrip_start_state (t0 : ℚ) (rf : Bool) :
    (SessionManager.init.start_session t0 rf).2 =
      { SessionManager.init with
        session_id := some t0
        current_session := some { SessionStatistics.init with start_time := some t0 }
        session_active := true
        capture_timer_start := some t0
        next_capture_time := some (t0 + SessionManager.init.capture_interval) } := by
  simp [SessionManager.start_session, SessionManager.init]

/-- C4 (amended): for every batch of at most MAX_EMOTION_HISTORY = 1000
detections, starting a session at t0, adding them in order and stopping at
t1 yields report-stage statistics whose detection history is exactly the
batch in arrival order, whose count is the batch length, and whose duration
is t1 - t0. -/
theorem roundtrip_preserves_records (ds : List EmotionDetection) (t0 t1 : ℚ)
    (rf : Bool) (hlen : ds.length ≤ 1000) :
    (roundtrip ds t0 t1 rf).stats.map StatsDict.detections_history = some ds ∧
    (roundtrip ds t0 t1 rf).stats.map StatsDict.total_detections = some ds.length ∧
    (roundtrip ds t0 t1 rf).stats.map StatsDict.duration = some (t1 - t0) ∧
    (roundtrip ds t0 t1 rf).stats.map StatsDict.start_time = some (some t0) ∧
    (roundtrip ds t0 t1 rf).stats.map StatsDict.end_time = some (some t1) := by
  have hhist := statsFold_history ds
    { SessionStatistics.init with start_time := some t0 }
    (by simpa [SessionStatistics.init] using hlen)
  have htot := statsFold_total ds
    { SessionStatistics.init with start_time := some t0 }
  have hst := statsFold_start_time ds
    { SessionStatistics.init with start_time := some t0 }
  simp only [SessionStatistics.init] at hhist htot hst
  refine ⟨?_, ?_, ?_, ?_, ?_⟩ <;>
  · simp only [roundtrip]
    rw [roundtrip_start_state]
    rw [add_all_active ds
      { SessionManager.init with
        session_id := some t0
        current_session := some { SessionStatistics.init with start_time := some t0 }
        session_active := true
        capture_timer_start := some t0
        next_capture_time := some (t0 + SessionManager.init.capture_interval) }
      { SessionStatistics.init with start_time := some t0 } rfl rfl]
    simp [SessionManager.end_session, SessionStatistics.to_dict, hhist, htot,
      hst, SessionStatistics.init]

/-- Two concrete detections for the round-trip witness. -/
def sampleDs : List EmotionDetection := [⟨"feliz", 3/5, 1⟩, ⟨"triste", 7/10, 6⟩]

/-- Witness for roundtrip_preserves_records on two detections. -/
theorem roundtrip_preserves_records_witness :
    (roundtrip sampleDs 0 7 false).stats.map StatsDict.detections_history
        = some sampleDs ∧
    (roundtrip sampleDs 0 7 false).stats.map StatsDict.total_detections
        = some sampleDs.length ∧
    (roundtrip sampleDs 0 7 false).stats.map StatsDict.duration = some (7 - 0) ∧
    (roundtrip sampleDs 0 7 false).stats.map StatsDict.start_time
        = some (some 0) ∧
    (roundtrip sampleDs 0 7 false).stats.map StatsDict.end_time
        = some (some 7) :=
  roundtrip_preserves_records sampleDs 0 7 false (by simp [sampleDs])

/-- Builder for the oversized batch below. -/
def mkBigDetection (i : ℕ) : EmotionDetection := ⟨"feliz", 1/2, (i : ℚ)⟩

/-- A batch of 1001 detections, one more than the history deque holds. -/
def bigInput : List EmotionDetection := (List.range 1001).map mkBigDetection

/-- C4 counterexample: with 1001 added detections the report-stage history
holds only 1000 records (the deque maxlen drops the oldest), so the claim
that every N ≥ 0 round-trips to exactly N records fails at N = 1001. -/
theorem roundtrip_drops_beyond_history_cap :
    (roundtrip bigInput 0 2000 false).stats.map
        (fun d => d.detections_history.length) = some 1000 ∧
    bigInput.length = 1001 ∧
    (roundtrip bigInput 0 2000 false).stats.map
        (fun d => d.detections_history.length) ≠ some bigInput.length := by
  have hlen1001 : bigInput.length = 1001 := by
    rw [bigInput, List.length_map, List.length_range]
  have hhlen := statsFold_history_len bigInput
    { SessionStatistics.init with start_time := some 0 }
    (by simp [SessionStatistics.init])
  rw [hlen1001] at hhlen
  simp only [SessionStatistics.init] at hhlen
  refine ⟨?_, hlen1001, ?_⟩ <;>
  · simp only [roundtrip]
    rw [roundtrip_start_state]
    rw [add_all_active bigInput
      { SessionManager.init with
        session_id := some (0:ℚ)
        current_session := some { SessionStatistics.init with start_time := some 0 }
        session_active := true
        capture_timer_start := some (0:ℚ)
        next_capture_time := some (0 + SessionManager.init.capture_interval) }
      { SessionStatistics.init with start_time := some 0 } rfl rfl]
    simp [SessionManager.end_session, SessionStatistics.to_dict, hhlen,
      hlen1001, SessionStatistics.init]

/-- np.argmax over a list of probabilities (utils/model_utils.py
predict_emotion, line 94): the index of the first occurrence of the
maximal element. -/
def argmaxIdx : List ℚ → Nat
  | [] => 0
  | [_] => 0
  | x :: xs =>
    let j := argmaxIdx xs
    if xs.getD j 0 > x then j + 1 else 0

/-- predict_emotion (utils/model_utils.py lines 87-96): the argmax index,
the probability stored at it, and the probability vector itself. -/
def predict_emotion (prob : List ℚ) : Nat × ℚ × List ℚ :=
  let idx := argmaxIdx prob
  (idx, prob.getD idx 0, prob)

/-- The five FER2013 base labels of utils/model_utils.py. -/
def fer5 : List String := ["enfado", "asco", "miedo", "feliz", "triste"]

/-- get_label_set_for_classes (utils/model_utils.py lines 99-131): fixed
vocabularies for 5 to 8 classes, otherwise synthetic per-index labels. -/
def get_label_set_for_classes (num_classes : Nat) : List String :=
  if num_classes = 5 then fer5
  else if num_classes = 6 then fer5 ++ ["neutral"]
  else if num_classes = 7 then fer5 ++ ["neutral", "sorpresa"]
  else if num_classes = 8 then fer5 ++ ["neutral", "sorpresa", "otro"]
  else (List.range num_classes).map (fun i => "clase_" ++ toString i)

/-- EmotionConfig.get_labels_for_classes (src/config.py lines 165-177). -/
def get_labels_for_classes (num_classes : Nat) : List String :=
  if num_classes = 5 then ["Enojado", "Asco", "Feliz", "Miedo", "Triste"]
  else if num_classes = 6 then ["Enojado", "Asco", "Feliz", "Miedo", "Triste", "Neutral"]
  else if num_classes = 7 then
    ["Enojado", "Asco", "Feliz", "Miedo", "Triste", "Neutral", "Sorpresa"]
  else if num_classes = 8 then
    ["Enojado", "Asco", "Feliz", "Miedo", "Triste", "Neutral", "Sorpresa", "Otro"]
  else (List.range num_classes).map (fun i => "Clase_" ++ toString i)

theorem argmaxIdx_lt_length :
    ∀ (l : List ℚ), l ≠ [] → argmaxIdx l < l.length
  | [], h => absurd rfl h
  | [_], _ => by simp [argmaxIdx]
  | x :: y :: ys, _ => by
    have IH := argmaxIdx_lt_length (y :: ys) (by simp)
    simp only [argmaxIdx]
    split_ifs <;> simp_all

theorem argmaxIdx_is_max :
    ∀ (l : List ℚ) (j : Nat), j < l.length →
      l.getD j 0 ≤ l.getD (argmaxIdx l) 0
  | [], j, h => by simp at h
  | [x], j, h => by
    cases j with
    | zero => simp [argmaxIdx]
    | succ m => simp at h
  | x :: y :: ys, j, h => by
    have IH := fun k hk => argmaxIdx_is_max (y :: ys) k hk
    simp only [argmaxIdx]
    split_ifs with hgt
    · cases j with
      | zero => simpa using le_of_lt hgt
      | succ m =>
        have := IH m (by simpa using h)
        simpa using this
    · cases j with
      | zero => simp
      | succ m =>
        have h1 := IH m (by simpa using h)
        have h2 : (y :: ys).getD (argmaxIdx (y :: ys)) 0 ≤ x := le_of_not_lt hgt
        simp only [List.getD_cons_succ, List.getD_cons_zero]
        exact le_trans h1 h2

theorem argmaxIdx_first_occurrence :
    ∀ (l : List ℚ) (j : Nat), j < argmaxIdx l →
      l.getD j 0 < l.getD (argmaxIdx l) 0
  | [], j, h => by simp [argmaxIdx] at h
  | [x], j, h => by simp [argmaxIdx] at h
  | x :: y :: ys, j, h => by
    have IH := fun k hk => argmaxIdx_first_occurrence (y :: ys) k hk
    simp only [argmaxIdx] at h ⊢
    split_ifs with hgt
    · cases j with
      | zero => simpa using hgt
      | succ m =>
        rw [if_pos hgt] at h
        have := IH m (by omega)
        simpa using this
    · rw [if_neg hgt] at h
      omega

/-- The seven-class tie vector of the specification. -/
def tieVector : List ℚ := [1/2, 1/2, 0, 0, 0, 0, 0]

/-- C7: predict_emotion selects the argmax index of the probability vector,
reports the probability stored there as the confidence (hence the maximum,
with exact ties resolved to the lowest tied index), and on the 7-class tie
vector [0.5, 0.5, 0, 0, 0, 0, 0] it selects index 0, confidence 0.5, whose
label is the label of index 0. -/
theorem argmax_selection_policy (prob : List ℚ) (h : prob ≠ []) :
    (predict_emotion prob).1 < prob.length ∧
    (predict_emotion prob).2.1 = prob.getD (predict_emotion prob).1 0 ∧
    (∀ j, j < prob.length → prob.getD j 0 ≤ (predict_emotion prob).2.1) ∧
    (∀ j, j < (predict_emotion prob).1 →
      prob.getD j 0 < (predict_emotion prob).2.1) ∧
    (predict_emotion tieVector).1 = 0 ∧
    (predict_emotion tieVector).2.1 = 1/2 ∧
    (get_label_set_for_classes 7).getD (predict_emotion tieVector).1 ""
        = (get_label_set_for_classes 7).getD 0 "" := by
  refine ⟨argmaxIdx_lt_length prob h, rfl,
    fun j hj => argmaxIdx_is_max prob j hj,
    fun j hj => argmaxIdx_first_occurrence prob j hj, ?_, ?_, ?_⟩
  · norm_num [predict_emotion, tieVector, argmaxIdx]
  · norm_num [predict_emotion, tieVector, argmaxIdx]
  · norm_num [predict_emotion, tieVector, argmaxIdx]

/-- Witness for argmax_selection_policy at the tie vector itself. -/
theorem argmax_selection_policy_witness :
    (predict_emotion tieVector).1 < tieVector.length ∧
    (predict_emotion tieVector).2.1 = tieVector.getD (predict_emotion tieVector).1 0 ∧
    (∀ j, j < tieVector.length →
      tieVector.getD j 0 ≤ (predict_emotion tieVector).2.1) ∧
    (∀ j, j < (predict_emotion tieVector).1 →
      tieVector.getD j 0 < (predict_emotion tieVector).2.1) ∧
    (predict_emotion tieVector).1 = 0 ∧
    (predict_emotion tieVector).2.1 = 1/2 ∧
    (get_label_set_for_classes 7).getD (predict_emotion tieVector).1 ""
        = (get_label_set_for_classes 7).getD 0 "" :=
  argmax_selection_policy tieVector (by simp [tieVector])

/-- The three-class vector of the specification. -/
def threeClassVector : List ℚ := [1/10, 7/10, 2/10]

/-- C8 counterexample: on the non-standard 3-class vector [0.1, 0.7, 0.2]
the fallback label at the selected index is the Spanish "clase_1" (with
confidence 0.7), not the "class_1" stated by the claim. -/
theorem fallback_label_not_class :
    (get_label_set_for_classes 3).getD (predict_emotion threeClassVector).1 ""
        = "clase_1" ∧
    (predict_emotion threeClassVector).2.1 = 7/10 ∧
    "clase_1" ≠ "class_1" := by
  refine ⟨?_, ?_, by decide⟩
  · have hidx : (predict_emotion threeClassVector).1 = 1 := by
      norm_num [predict_emotion, threeClassVector, argmaxIdx]
    rw [hidx]
    simp [get_label_set_for_classes, List.range_succ]
    rfl
  · norm_num [predict_emotion, threeClassVector, argmaxIdx]

/-- C8 (amended): for every class count other than 5, 6, 7 and 8 the
fallback label set consists of the synthetic per-index labels
"clase_i" (model_utils) respectively "Clase_i" (config), and on the
3-class vector [0.1, 0.7, 0.2] label resolution produces "clase_1" with
confidence 0.7. -/
theorem fallback_labels_clase (n : Nat) (h5 : n ≠ 5) (h6 : n ≠ 6)
    (h7 : n ≠ 7) (h8 : n ≠ 8) :
    get_label_set_for_classes n
        = (List.range n).map (fun i => "clase_" ++ toString i) ∧
    get_labels_for_classes n
        = (List.range n).map (fun i => "Clase_" ++ toString i) ∧
    (get_label_set_for_classes 3).getD (predict_emotion threeClassVector).1 ""
        = "clase_1" ∧
    (predict_emotion threeClassVector).2.1 = 7/10 := by
  refine ⟨?_, ?_, ?_, ?_⟩
  · simp [get_label_set_for_classes, h5, h6, h7, h8]
  · simp [get_labels_for_classes, h5, h6, h7, h8]
  · have hidx : (predict_emotion threeClassVector).1 = 1 := by
      norm_num [predict_emotion, threeClassVector, argmaxIdx]
    rw [hidx]
    simp [get_label_set_for_classes, List.range_succ]
    rfl
  · norm_num [predict_emotion, threeClassVector, argmaxIdx]

/-- Witness for fallback_labels_clase at the 3-class count. -/
theorem fallback_labels_clase_witness :
    get_label_set_for_classes 3
        = (List.range 3).map (fun i => "clase_" ++ toString i) ∧
    get_labels_for_classes 3
        = (List.range 3).map (fun i => "Clase_" ++ toString i) ∧
    (get_label_set_for_classes 3).getD (predict_emotion threeClassVector).1 ""
        = "clase_1" ∧
    (predict_emotion threeClassVector).2.1 = 7/10 :=
  fallback_labels_clase 3 (by decide) (by decide) (by decide) (by decide)
